import Mathlib

/-!
Shallow embedding of the `express-hystrix` middleware (source file
`index.js`, function `hystrixFactory`), together with theorems settling
the specification's claims about it.

The middleware bridges Express requests to hystrixjs commands:
it resolves a command identity per request, merges breaker configuration,
runs the downstream chain inside an awaitable execution unit, and
dispatches a fallback on non-success outcomes.  The hystrixjs circuit
breaker itself is an external collaborator; where a claim depends on it,
the breaker is modelled from the spec's contract and the definition says so.
-/

deriving instance DecidableEq for Except

namespace ExpressHystrix

/-- An Express request; the bridge only reads its `path`. -/
structure Req where
  path : String
deriving DecidableEq

/-- A JS error value as the bridge observes it: only `message` is inspected. -/
structure JsError where
  message : String
deriving DecidableEq

/-- An Express response as the bridge observes it: only `finished` is read
by the fallback. -/
structure Res where
  finished : Bool
deriving DecidableEq

/-! === Command identity resolution

`const command = config.commandResolver && config.commandResolver(req) || req.path;`

The resolver may be absent (`none`), may throw (`Except.error`), and may
return a JS value whose truthiness decides the `||`: `null`/`undefined`
are modelled as `Option.none`, a string `s` is truthy iff `s ≠ ""`. -/

/-- Truthiness of a resolver result: `null`/`undefined` and `""` are falsy. -/
def truthyStr : Option String → Bool
  | none => false
  | some s => s ≠ ""

/-- Command identity: `config.commandResolver && config.commandResolver(req) || req.path`,
with a thrown exception propagating out (no try/catch in the source). -/
def resolveCommand (commandResolver : Option (Req → Except JsError (Option String)))
    (req : Req) : Except JsError String :=
  match commandResolver with
  | none => Except.ok req.path
  | some f =>
    match f req with
    | Except.error e => Except.error e
    | Except.ok v => if truthyStr v then Except.ok (v.getD req.path) else Except.ok req.path

/-! === Default fallback

```
function defaultFallback(err, args) {
    const next = args.pop();
    const res = args.pop();
    return new Promise((resolve, reject) => {
        if (res.finished) {
            return reject(err);
        }
        err = err && err.message === 'OpenCircuitError' ? err : undefined;
        next(err);
        resolve();
    });
}
```
`args.pop()` extracts `next` then `res`; `next` is modelled by recording
the argument it was (or was not) called with. -/

/-- Observable result of a fallback invocation: how its promise settled and
whether/with what argument the continuation `next` was invoked
(`none` = never called, `some a` = called once with `a`). -/
structure FallbackOut where
  promise : Except (Option JsError) Unit
  nextCall : Option (Option JsError)
deriving DecidableEq

/-- The default fallback of `hystrixFactory` (the error may be `null`,
hence `Option JsError`). -/
def defaultFallback (err : Option JsError) (res : Res) : FallbackOut :=
  if res.finished then
    { promise := Except.error err, nextCall := none }
  else
    let err' := match err with
      | some e => if e.message = "OpenCircuitError" then some e else none
      | none => none
    { promise := Except.ok (), nextCall := some err' }

/-! === Default command executor

```
function defaultRunCommand(command, req, res, next) {
    return new Promise((resolve, reject) => {
        const handleResponseStatus = Hoek.once(function handleResponseStatus() {
            if (config.commandStatusResolver) {
                return config.commandStatusResolver(req, res)
                .then(resolve)
                .catch(reject);
            }
            resolve();
        });
        res.once('finish', handleResponseStatus);
        res.once('close', handleResponseStatus);
        next();
    });
}
```
The promise's settlement is observed through counters of `resolve`/`reject`
calls; `Hoek.once` is the `latchFired` flag, `res.once` the per-event
`armed` flags.  The status resolver's own settlement is a value of
`Except JsError Unit` (`ok` = fulfilled, `error e` = rejected with `e`). -/

/-- A response lifecycle signal. -/
inductive Signal where
  | finish
  | close
deriving DecidableEq

/-- State of one `defaultRunCommand` promise: which `once` listeners are
still armed, whether the `Hoek.once` latch has fired, and how often
`resolve`/`reject` were called (with the forwarded rejection reason). -/
structure RunState where
  finishArmed : Bool
  closeArmed : Bool
  latchFired : Bool
  resolveCalls : Nat
  rejectCalls : Nat
  rejectedWith : Option JsError
deriving DecidableEq

/-- Fresh state right after `defaultRunCommand` registered its listeners. -/
def initRunState : RunState :=
  { finishArmed := true, closeArmed := true, latchFired := false,
    resolveCalls := 0, rejectCalls := 0, rejectedWith := none }

/-- The `Hoek.once`-guarded `handleResponseStatus` body:
runs at most once; without a status resolver it resolves, otherwise the
resolver's settlement is forwarded to `resolve`/`reject` verbatim. -/
def handleResponseStatus (statusResolver : Option (Except JsError Unit))
    (st : RunState) : RunState :=
  if st.latchFired then st
  else
    match statusResolver with
    | none =>
      { st with latchFired := true, resolveCalls := st.resolveCalls + 1 }
    | some (Except.ok _) =>
      { st with latchFired := true, resolveCalls := st.resolveCalls + 1 }
    | some (Except.error e) =>
      { st with latchFired := true, rejectCalls := st.rejectCalls + 1,
                rejectedWith := some e }

/-- One lifecycle signal firing: `res.once` invokes the listener only while
it is still armed for that event, then disarms it. -/
def emitSignal (statusResolver : Option (Except JsError Unit))
    (st : RunState) : Signal → RunState
  | Signal.finish =>
    if st.finishArmed then
      handleResponseStatus statusResolver { st with finishArmed := false }
    else st
  | Signal.close =>
    if st.closeArmed then
      handleResponseStatus statusResolver { st with closeArmed := false }
    else st

/-- The whole lifecycle of one default-executed request: the listed signals
fire in order on the fresh state. -/
def processSignals (statusResolver : Option (Except JsError Unit))
    (sigs : List Signal) : RunState :=
  sigs.foldl (emitSignal statusResolver) initRunState

/-! === Configuration merger

```
if (config.hystrix) {
    if (config.hystrix['default']) {
        Object.assign(commandBuilder.config, config.hystrix['default']);
    }
    if (config.hystrix[command]) {
        Object.assign(commandBuilder.config, config.hystrix[command]);
    }
}
```
A configuration layer is the list of own enumerable key/value pairs of a
JS object (later duplicates win, as in `Object.assign`); the breaker's
live configuration is a total lookup `String → Option V`. -/

/-- Model of `Object.assign(target, src)`: assign each pair of `src` onto `target`
in order. -/
def objectAssign {V : Type} (target : String → Option V)
    (src : List (String × V)) : String → Option V :=
  src.foldl (fun t kv => fun k => if k = kv.1 then some kv.2 else t k) target

/-- The value `Object.assign` would take from a source layer for key `k`:
its last binding of `k`, if any. -/
def assocLast {V : Type} (l : List (String × V)) (k : String) : Option V :=
  l.foldl (fun acc kv => if kv.1 = k then some kv.2 else acc) none

/-- The merger applied by the middleware before each execution: default
layer first, then the per-command layer, onto the breaker's live config. -/
def mergeLayers {V : Type} (base : String → Option V)
    (defaultLayer perCommand : List (String × V)) : String → Option V :=
  objectAssign (objectAssign base defaultLayer) perCommand

/-! === Custom fallback bridge

```
fallback = (err, args) => {
    // fallback(err, command, req, res, next)
    return config.fallback(err, args.shift(), args.shift(), args.shift(), args.shift());
};
```
hystrixjs hands the fallback the rejection reason and the `execute`
argument list `[command, req, res, next]`; the four `args.shift()` calls
are evaluated left to right, each removing the current front element.
Absent elements are `undefined` (`Option.none`). -/

/-- Model of `Array.prototype.shift`: remove and return the front element
(`undefined` when empty). -/
def jsShift {α : Type} (l : List α) : Option α × List α :=
  (l.head?, l.tail)

/-- The bridge wrapping a configured custom fallback. -/
def customFallbackBridge {α β : Type}
    (customFallback : Option JsError → Option α → Option α → Option α → Option α → β)
    (err : Option JsError) (args : List α) : β :=
  let (a1, r1) := jsShift args
  let (a2, r2) := jsShift r1
  let (a3, r3) := jsShift r2
  let (a4, _) := jsShift r3
  customFallback err a1 a2 a3 a4

/-- Execution outcomes recorded in the breaker's rolling metrics. -/
inductive Outcome where
  | success
  | failure
  | timeout
  | shortCircuited
  | fallbackSuccess
  | fallbackFailure
deriving DecidableEq

/-- Modelled from the spec: hystrixjs (the external collaborator, not part
of this repository's sources) awaits the fallback's returned awaitable and
classifies its settlement as FALLBACK_SUCCESS (fulfilled) or
FALLBACK_FAILURE (rejected). -/
def classifyFallback : Except JsError Unit → Outcome
  | Except.ok _ => Outcome.fallbackSuccess
  | Except.error _ => Outcome.fallbackFailure

/-! === Setup-time configuration resolution

```
if (config.commandResolver && typeof config.commandResolver === 'string') {
    config.commandResolver = require(config.commandResolver);
}
...same for commandStatusResolver, fallback, runCommand, commandExecutorFactory...
```
Each field is absent, a string module identifier, or already a function;
`require` is an abstract loader `String → F`.  The truthiness guard
(`config.X &&`) means an empty string is falsy and is NOT loaded. -/

/-- A polymorphic setup-configuration field. -/
inductive ConfigField (F : Type) where
  | absent
  | strRef (s : String)
  | fn (f : F)
deriving DecidableEq

/-- The caller's setup configuration object; `hystrix` stands for the
fields the factory never touches. -/
structure SetupConfig (F H : Type) where
  commandResolver : ConfigField F
  commandStatusResolver : ConfigField F
  fallback : ConfigField F
  runCommand : ConfigField F
  commandExecutorFactory : ConfigField F
  hystrix : H
deriving DecidableEq

/-- One `if (config.X && typeof config.X === 'string') config.X = require(config.X)`
step: a truthy (non-empty) string is replaced by the loaded callable;
everything else is left as is. -/
def resolveRef {F : Type} (load : String → F) : ConfigField F → ConfigField F
  | ConfigField.strRef s => if s = "" then ConfigField.strRef s else ConfigField.fn (load s)
  | x => x

/-- The field mutations `hystrixFactory` performs on the caller's config
object at setup time (the object is mutated in place in JS; here the
updated object is returned). -/
def hystrixFactorySetup {F H : Type} (load : String → F)
    (c : SetupConfig F H) : SetupConfig F H :=
  { c with
    commandResolver := resolveRef load c.commandResolver
    commandStatusResolver := resolveRef load c.commandStatusResolver
    fallback := resolveRef load c.fallback
    runCommand := resolveRef load c.runCommand
    commandExecutorFactory := resolveRef load c.commandExecutorFactory }

/-! === Circuit breaker (external collaborator) -/

/-- Modelled from the spec: the hystrixjs circuit breaker is an external
collaborator whose code is not in this repository's sources; the spec
specifies it only as a contract — it "rejects requests once recent
failure rate/volume crosses a threshold, and probes recovery after a
sleep window", counting consecutive failures against the volume
threshold.  `openedAt` is the time the circuit opened, if it did. -/
structure Breaker where
  volumeThreshold : Nat
  sleepWindow : Nat
  failures : Nat
  openedAt : Option Nat
deriving DecidableEq

/-- A fresh (closed) breaker with the merged configuration. -/
def mkBreaker (volumeThreshold sleepWindow : Nat) : Breaker :=
  { volumeThreshold := volumeThreshold, sleepWindow := sleepWindow,
    failures := 0, openedAt := none }

/-- Modelled from the spec: the circuit is open at time `t` when it opened
at some `t0` and the sleep window has not yet elapsed. -/
def isOpen (b : Breaker) (t : Nat) : Bool :=
  match b.openedAt with
  | some t0 => t < t0 + b.sleepWindow
  | none => false

/-- Modelled from the spec: executing one request at time `t` against the
breaker.  An open circuit short-circuits without invoking the handler
chain; otherwise the handler runs (`handlerFails` is its outcome), a
failure extends the consecutive-failure count and opens the circuit once
the volume threshold is reached.  Returns the new breaker state, the
recorded outcome, and whether the downstream handler chain was invoked. -/
def breakerExecute (b : Breaker) (t : Nat) (handlerFails : Bool) :
    Breaker × Outcome × Bool :=
  if isOpen b t then (b, Outcome.shortCircuited, false)
  else
    let f := if handlerFails then b.failures + 1 else 0
    let opened := if b.volumeThreshold ≤ f ∧ handlerFails then some t else b.openedAt
    ({ b with failures := f, openedAt := opened },
     if handlerFails then Outcome.failure else Outcome.success, true)

/-- Run `n` consecutive failing requests at times `0, 1, …, n-1`. -/
def runFailing (b : Breaker) (n : Nat) : Breaker :=
  (List.range n).foldl (fun st t => (breakerExecute st t true).1) b

/-! === Helper lemmas -/

/-- Once the `Hoek.once` latch has fired, a further lifecycle signal changes
no counter and the latch stays fired. -/
lemma emitSignal_latched (sr : Option (Except JsError Unit)) (st : RunState)
    (sig : Signal) (h : st.latchFired = true) :
    (emitSignal sr st sig).resolveCalls = st.resolveCalls ∧
    (emitSignal sr st sig).rejectCalls = st.rejectCalls ∧
    (emitSignal sr st sig).rejectedWith = st.rejectedWith ∧
    (emitSignal sr st sig).latchFired = true := by
  cases sig <;> simp only [emitSignal] <;> split <;>
    simp [handleResponseStatus, h]

/-- Once the latch has fired, any further signal sequence changes no counter. -/
lemma foldl_emitSignal_latched (sr : Option (Except JsError Unit))
    (sigs : List Signal) (st : RunState) (h : st.latchFired = true) :
    (sigs.foldl (emitSignal sr) st).resolveCalls = st.resolveCalls ∧
    (sigs.foldl (emitSignal sr) st).rejectCalls = st.rejectCalls ∧
    (sigs.foldl (emitSignal sr) st).rejectedWith = st.rejectedWith := by
  induction sigs generalizing st with
  | nil => exact ⟨rfl, rfl, rfl⟩
  | cons sig rest ih =>
    obtain ⟨h1, h2, h3, h4⟩ := emitSignal_latched sr st sig h
    obtain ⟨i1, i2, i3⟩ := ih (emitSignal sr st sig) h4
    exact ⟨by rw [List.foldl_cons, i1, h1], by rw [List.foldl_cons, i2, h2],
           by rw [List.foldl_cons, i3, h3]⟩

/-- When the status resolver is absent or fulfilled, no signal ever calls
`reject`. -/
lemma foldl_emitSignal_no_reject (sr : Option (Except JsError Unit))
    (hsr : ∀ e, sr ≠ some (Except.error e)) (sigs : List Signal) (st : RunState) :
    (sigs.foldl (emitSignal sr) st).rejectCalls = st.rejectCalls := by
  induction sigs generalizing st with
  | nil => rfl
  | cons sig rest ih =>
    rw [List.foldl_cons, ih]
    cases sig <;> simp only [emitSignal] <;> split <;>
      simp only [handleResponseStatus] <;> try rfl
    all_goals
      split
      · rfl
      · match hm : sr with
        | none => rfl
        | some (Except.ok _) => rfl
        | some (Except.error e) => exact absurd hm (by simpa using hsr e)

/-- The first signal on a fresh state, no status resolver: resolve once. -/
lemma emit_init_none (sig : Signal) :
    (emitSignal none initRunState sig).resolveCalls = 1 ∧
    (emitSignal none initRunState sig).rejectCalls = 0 ∧
    (emitSignal none initRunState sig).latchFired = true := by
  cases sig <;> exact ⟨rfl, rfl, rfl⟩

/-- The first signal on a fresh state, fulfilled status resolver: resolve once. -/
lemma emit_init_ok (u : Unit) (sig : Signal) :
    (emitSignal (some (Except.ok u)) initRunState sig).resolveCalls = 1 ∧
    (emitSignal (some (Except.ok u)) initRunState sig).rejectCalls = 0 ∧
    (emitSignal (some (Except.ok u)) initRunState sig).latchFired = true := by
  cases sig <;> exact ⟨rfl, rfl, rfl⟩

/-- The first signal on a fresh state, rejected status resolver: reject once,
reason forwarded. -/
lemma emit_init_error (e : JsError) (sig : Signal) :
    (emitSignal (some (Except.error e)) initRunState sig).resolveCalls = 0 ∧
    (emitSignal (some (Except.error e)) initRunState sig).rejectCalls = 1 ∧
    (emitSignal (some (Except.error e)) initRunState sig).rejectedWith = some e ∧
    (emitSignal (some (Except.error e)) initRunState sig).latchFired = true := by
  cases sig <;> exact ⟨rfl, rfl, rfl, rfl⟩

/-- C1: For every default-executed request with no `commandStatusResolver`,
any non-empty sequence of `finish`/`close` signals makes the execution
settle as SUCCESS exactly once: `resolve` is called exactly once, `reject`
never, and the one-shot latch has fired (so the completion handler ran at
most — here exactly — once), even when both signals fire. -/
theorem default_executor_success_once (sigs : List Signal) (h : sigs ≠ []) :
    (processSignals none sigs).resolveCalls = 1 ∧
    (processSignals none sigs).rejectCalls = 0 := by
  obtain ⟨sig, rest, rfl⟩ : ∃ a l, sigs = a :: l := by
    cases sigs with
    | nil => exact absurd rfl h
    | cons a l => exact ⟨a, l, rfl⟩
  unfold processSignals
  rw [List.foldl_cons]
  obtain ⟨e1, e2, e3⟩ := emit_init_none sig
  obtain ⟨f1, f2, _⟩ := foldl_emitSignal_latched none rest _ e3
  exact ⟨f1.trans e1, f2.trans e2⟩

/-- C1 witness: both signals firing (`finish` then `close`) still settles
SUCCESS exactly once. -/
theorem default_executor_success_once_witness :
    ([Signal.finish, Signal.close] : List Signal) ≠ [] ∧
    (processSignals none [Signal.finish, Signal.close]).resolveCalls = 1 ∧
    (processSignals none [Signal.finish, Signal.close]).rejectCalls = 0 :=
  ⟨by decide, default_executor_success_once [Signal.finish, Signal.close] (by decide)⟩

/-- C8: With a `commandStatusResolver` configured and the default executor,
the resolver's settlement alone decides the outcome: fulfilment resolves
(SUCCESS) exactly once, rejection rejects (FAILURE) exactly once with the
reason forwarded verbatim, and a `reject` can only ever have come from a
rejected resolver. -/
theorem status_resolver_sole_failure (sigs : List Signal) (h : sigs ≠ [])
    (e : JsError) :
    (processSignals (some (Except.ok ())) sigs).resolveCalls = 1 ∧
    (processSignals (some (Except.ok ())) sigs).rejectCalls = 0 ∧
    (processSignals (some (Except.error e)) sigs).rejectCalls = 1 ∧
    (processSignals (some (Except.error e)) sigs).resolveCalls = 0 ∧
    (processSignals (some (Except.error e)) sigs).rejectedWith = some e ∧
    (∀ sr, 0 < (processSignals sr sigs).rejectCalls →
      ∃ e', sr = some (Except.error e')) := by
  obtain ⟨sig, rest, rfl⟩ : ∃ a l, sigs = a :: l := by
    cases sigs with
    | nil => exact absurd rfl h
    | cons a l => exact ⟨a, l, rfl⟩
  obtain ⟨k1, k2, k3⟩ := emit_init_ok () sig
  obtain ⟨m1, m2, m3, m4⟩ := emit_init_error e sig
  obtain ⟨g1, g2, _⟩ := foldl_emitSignal_latched (some (Except.ok ())) rest _ k3
  obtain ⟨n1, n2, n3⟩ := foldl_emitSignal_latched (some (Except.error e)) rest _ m4
  refine ⟨?_, ?_, ?_, ?_, ?_, ?_⟩
  case _ => unfold processSignals; rw [List.foldl_cons]; exact g1.trans k1
  case _ => unfold processSignals; rw [List.foldl_cons]; exact g2.trans k2
  case _ => unfold processSignals; rw [List.foldl_cons]; exact n2.trans m2
  case _ => unfold processSignals; rw [List.foldl_cons]; exact n1.trans m1
  case _ => unfold processSignals; rw [List.foldl_cons]; exact n3.trans m3
  case _ =>
    intro sr hpos
    by_contra hno
    push_neg at hno
    have h0 := foldl_emitSignal_no_reject sr (fun e' => hno e') (sig :: rest)
      initRunState
    rw [processSignals] at hpos
    have hz : initRunState.rejectCalls = 0 := rfl
    omega

/-- C8 witness: on the single signal `close`, a fulfilled resolver yields
SUCCESS once and a resolver rejected with `Boom` yields FAILURE once with
the reason forwarded. -/
theorem status_resolver_sole_failure_witness :
    ([Signal.close] : List Signal) ≠ [] ∧
    ((processSignals (some (Except.ok ())) [Signal.close]).resolveCalls = 1 ∧
     (processSignals (some (Except.ok ())) [Signal.close]).rejectCalls = 0 ∧
     (processSignals (some (Except.error (JsError.mk "Boom")))
        [Signal.close]).rejectCalls = 1 ∧
     (processSignals (some (Except.error (JsError.mk "Boom")))
        [Signal.close]).resolveCalls = 0 ∧
     (processSignals (some (Except.error (JsError.mk "Boom")))
        [Signal.close]).rejectedWith = some (JsError.mk "Boom") ∧
     (∀ sr, 0 < (processSignals sr [Signal.close]).rejectCalls →
       ∃ e', sr = some (Except.error e'))) :=
  ⟨by decide, status_resolver_sole_failure [Signal.close] (by decide)
    (JsError.mk "Boom")⟩

/-- C2 counterexample: when the resolver throws, the resolved command
identity is NOT the request path — the exception propagates out of the
middleware (there is no try/catch around `config.commandResolver(req)`),
so command resolution produces the error, not `req.path`. -/
theorem resolver_throw_counterexample :
    resolveCommand (some fun _ => Except.error (JsError.mk "Boom"))
      (Req.mk "/a") = Except.error (JsError.mk "Boom") ∧
    resolveCommand (some fun _ => Except.error (JsError.mk "Boom"))
      (Req.mk "/a") ≠ Except.ok "/a" := by
  exact ⟨rfl, by decide⟩

/-- C2 amended: when the resolver is absent the command identity is the
request path; when the resolver throws, the exception propagates verbatim
and no command identity is resolved at all. -/
theorem command_identity_absent_or_throw :
    (∀ req : Req, resolveCommand none req = Except.ok req.path) ∧
    (∀ (f : Req → Except JsError (Option String)) (req : Req) (e : JsError),
      f req = Except.error e → resolveCommand (some f) req = Except.error e) := by
  refine ⟨fun req => rfl, fun f req e hf => ?_⟩
  simp [resolveCommand, hf]

/-- C2 witness: absent resolver on path `/a` yields `/a`; a throwing
resolver propagates `Boom`. -/
theorem command_identity_absent_or_throw_witness :
    resolveCommand none (Req.mk "/a") = Except.ok "/a" ∧
    ((fun _ : Req => Except.error (ε := JsError) (α := Option String)
        (JsError.mk "Boom")) (Req.mk "/a") = Except.error (JsError.mk "Boom") ∧
     resolveCommand (some fun _ => Except.error (JsError.mk "Boom"))
        (Req.mk "/a") = Except.error (JsError.mk "Boom")) :=
  ⟨command_identity_absent_or_throw.1 (Req.mk "/a"),
   rfl,
   command_identity_absent_or_throw.2
     (fun _ => Except.error (JsError.mk "Boom")) (Req.mk "/a")
     (JsError.mk "Boom") rfl⟩

/-- C6 counterexample: a resolver returning the empty string (falsy but
non-null) does NOT make the empty string the command identity — the `||`
in `config.commandResolver(req) || req.path` falls back to the request
path. -/
theorem resolver_empty_string_counterexample :
    resolveCommand (some fun _ => Except.ok (some "")) (Req.mk "/p") =
      Except.ok "/p" ∧
    ("/p" : String) ≠ "" ∧
    resolveCommand (some fun _ => Except.ok (some "")) (Req.mk "/p") ≠
      Except.ok "" := by
  exact ⟨rfl, by decide, by decide⟩

/-- C6 amended: the resolver's returned value is the command identity only
when it is truthy (a non-empty string); falsy returns — the empty string
as well as `null`/`undefined` — fall back to the request path (the source
uses JS `||`, not `??`). -/
theorem resolver_truthiness_command :
    (∀ (f : Req → Except JsError (Option String)) (req : Req) (s : String),
      f req = Except.ok (some s) → s ≠ "" →
      resolveCommand (some f) req = Except.ok s) ∧
    (∀ (f : Req → Except JsError (Option String)) (req : Req),
      f req = Except.ok (some "") →
      resolveCommand (some f) req = Except.ok req.path) ∧
    (∀ (f : Req → Except JsError (Option String)) (req : Req),
      f req = Except.ok none →
      resolveCommand (some f) req = Except.ok req.path) := by
  refine ⟨fun f req s hf hs => ?_, fun f req hf => ?_, fun f req hf => ?_⟩
  · simp [resolveCommand, hf, truthyStr, hs]
  · simp [resolveCommand, hf, truthyStr]
  · simp [resolveCommand, hf, truthyStr]

/-- C6 witness: a resolver returning `home` on path `/p` makes the command
`home`; resolvers returning `""` or `null` yield `/p`. -/
theorem resolver_truthiness_command_witness :
    resolveCommand (some fun _ => Except.ok (some "home")) (Req.mk "/p") =
      Except.ok "home" ∧
    resolveCommand (some fun _ => Except.ok (some "")) (Req.mk "/p") =
      Except.ok "/p" ∧
    resolveCommand (some fun _ => Except.ok none) (Req.mk "/p") =
      Except.ok "/p" :=
  ⟨resolver_truthiness_command.1 (fun _ => Except.ok (some "home"))
     (Req.mk "/p") "home" rfl (by decide),
   resolver_truthiness_command.2.1 (fun _ => Except.ok (some "")) (Req.mk "/p")
     rfl,
   resolver_truthiness_command.2.2 (fun _ => Except.ok none) (Req.mk "/p") rfl⟩

/-- C3: When the response is not yet fully sent, the default fallback
invokes the continuation and fulfils its promise (never rejects); the
continuation receives the error exactly when its message is
`OpenCircuitError`, and receives `undefined` for every other error. -/
theorem defaultFallback_forwards_open_circuit (e : JsError) (res : Res)
    (hres : res.finished = false) :
    (defaultFallback (some e) res).promise = Except.ok () ∧
    (defaultFallback (some e) res).nextCall ≠ none ∧
    ((defaultFallback (some e) res).nextCall = some (some e) ↔
      e.message = "OpenCircuitError") ∧
    (e.message ≠ "OpenCircuitError" →
      (defaultFallback (some e) res).nextCall = some none) := by
  by_cases hmsg : e.message = "OpenCircuitError" <;>
    simp [defaultFallback, hres, hmsg]

/-- C3 witness: an open-circuit error is forwarded to the continuation, a
`Boom` error is swallowed; both fulfil the promise. -/
theorem defaultFallback_forwards_open_circuit_witness :
    ((Res.mk false).finished = false ∧
     (defaultFallback (some (JsError.mk "OpenCircuitError"))
        (Res.mk false)).nextCall = some (some (JsError.mk "OpenCircuitError"))) ∧
    ((defaultFallback (some (JsError.mk "Boom")) (Res.mk false)).promise =
        Except.ok () ∧
     (defaultFallback (some (JsError.mk "Boom")) (Res.mk false)).nextCall =
        some none) :=
  ⟨⟨rfl, (defaultFallback_forwards_open_circuit (JsError.mk "OpenCircuitError")
      (Res.mk false) rfl).2.2.1.mpr rfl⟩,
   (defaultFallback_forwards_open_circuit (JsError.mk "Boom")
      (Res.mk false) rfl).1,
   (defaultFallback_forwards_open_circuit (JsError.mk "Boom")
      (Res.mk false) rfl).2.2.2 (by decide)⟩

/-- C4: When the response was already fully sent (`res.finished`), the
default fallback rejects its promise with the error and never invokes the
continuation, so the response is never written twice. -/
theorem defaultFallback_finished_rejects (err : Option JsError) (res : Res)
    (hres : res.finished = true) :
    (defaultFallback err res).promise = Except.error err ∧
    (defaultFallback err res).nextCall = none := by
  simp [defaultFallback, hres]

/-- C4 witness: with a finished response, a `Boom` error is rejected and the
continuation is untouched. -/
theorem defaultFallback_finished_rejects_witness :
    (Res.mk true).finished = true ∧
    (defaultFallback (some (JsError.mk "Boom")) (Res.mk true)).promise =
      Except.error (some (JsError.mk "Boom")) ∧
    (defaultFallback (some (JsError.mk "Boom")) (Res.mk true)).nextCall =
      none :=
  ⟨rfl, defaultFallback_finished_rejects (some (JsError.mk "Boom"))
    (Res.mk true) rfl⟩

/-- Evaluating `objectAssign` at one key is a fold over that key's bindings, started
from the target's current value. -/
lemma objectAssign_foldl {V : Type} (l : List (String × V))
    (t : String → Option V) (k : String) :
    objectAssign t l k =
      l.foldl (fun acc kv => if kv.1 = k then some kv.2 else acc) (t k) := by
  induction l generalizing t with
  | nil => rfl
  | cons kv rest ih =>
    show objectAssign (fun k' => if k' = kv.1 then some kv.2 else t k') rest k = _
    rw [ih, List.foldl_cons]
    by_cases hk : k = kv.1
    · simp [hk]
    · have hk' : ¬ kv.1 = k := fun h => hk h.symm
      simp [hk, hk']

/-- A last-binding fold is independent of its start except when the key is
unbound. -/
lemma foldl_lastBinding {V : Type} (l : List (String × V)) (k : String)
    (a : Option V) :
    l.foldl (fun acc kv => if kv.1 = k then some kv.2 else acc) a =
      match l.foldl (fun acc kv => if kv.1 = k then some kv.2 else acc) none with
      | some v => some v
      | none => a := by
  induction l generalizing a with
  | nil => rfl
  | cons kv rest ih =>
    rw [List.foldl_cons, List.foldl_cons, ih, ih (if kv.1 = k then some kv.2 else none)]
    cases rest.foldl (fun acc kv => if kv.1 = k then some kv.2 else acc) none with
    | some v => rfl
    | none => by_cases hk : kv.1 = k <;> simp [hk]

/-- Pointwise, `Object.assign` looks a key up in the source layer's last binding and
falls back to the target. -/
lemma objectAssign_apply {V : Type} (l : List (String × V))
    (t : String → Option V) (k : String) :
    objectAssign t l k =
      match assocLast l k with
      | some v => some v
      | none => t k := by
  rw [objectAssign_foldl, foldl_lastBinding]
  rfl

/-- The two-layer merge at one key: per-command binding first, then the
default layer, then the breaker's prior value. -/
lemma mergeLayers_apply {V : Type} (base : String → Option V)
    (d p : List (String × V)) (k : String) :
    mergeLayers base d p k =
      match assocLast p k with
      | some v => some v
      | none =>
        match assocLast d k with
        | some v => some v
        | none => base k := by
  show objectAssign (objectAssign base d) p k = _
  rw [objectAssign_apply]
  cases assocLast p k with
  | some v => rfl
  | none => rw [objectAssign_apply]

/-- C5: Applying the default layer then the per-command layer (each a
sparse `Object.assign`) replaces exactly the overridden keys: a key bound
in the per-command layer takes its value (per-command precedence), a key
bound only in the default layer takes the default value, a key bound in
neither keeps the breaker's prior value, and re-applying the same merge
is idempotent. -/
theorem config_merge_layers {V : Type} (base : String → Option V)
    (d p : List (String × V)) (k : String) :
    (∀ v, assocLast p k = some v → mergeLayers base d p k = some v) ∧
    (assocLast p k = none → ∀ v, assocLast d k = some v →
      mergeLayers base d p k = some v) ∧
    (assocLast p k = none → assocLast d k = none →
      mergeLayers base d p k = base k) ∧
    mergeLayers (mergeLayers base d p) d p k = mergeLayers base d p k := by
  refine ⟨fun v hp => ?_, fun hp v hd => ?_, fun hp hd => ?_, ?_⟩
  · rw [mergeLayers_apply, hp]
  · rw [mergeLayers_apply, hp, hd]
  · rw [mergeLayers_apply, hp, hd]
  · rw [mergeLayers_apply, mergeLayers_apply base]
    cases hp : assocLast p k with
    | some v => rfl
    | none =>
      cases hd : assocLast d k with
      | some v => rfl
      | none => rfl

/-- C5 witness: base has `w ↦ 7`; default layer binds `a ↦ 1, b ↦ 2`;
per-command layer binds `b ↦ 9`; the merge is checked at key `b`. -/
theorem config_merge_layers_witness :
    (∀ v, assocLast [("b", 9)] "b" = some v →
      mergeLayers (fun k => if k = "w" then some 7 else none)
        [("a", 1), ("b", 2)] [("b", 9)] "b" = some v) ∧
    (assocLast [("b", 9)] "b" = none → ∀ v,
      assocLast [("a", 1), ("b", 2)] "b" = some v →
      mergeLayers (fun k => if k = "w" then some 7 else none)
        [("a", 1), ("b", 2)] [("b", 9)] "b" = some v) ∧
    (assocLast [("b", 9)] "b" = none →
      assocLast [("a", 1), ("b", 2)] "b" = none →
      mergeLayers (fun k => if k = "w" then some 7 else none)
        [("a", 1), ("b", 2)] [("b", 9)] "b" =
        (fun k => if k = "w" then some 7 else none) "b") ∧
    mergeLayers (mergeLayers (fun k => if k = "w" then some 7 else none)
        [("a", 1), ("b", 2)] [("b", 9)]) [("a", 1), ("b", 2)] [("b", 9)] "b" =
      mergeLayers (fun k => if k = "w" then some 7 else none)
        [("a", 1), ("b", 2)] [("b", 9)] "b" :=
  config_merge_layers (fun k => if k = "w" then some 7 else none)
    [("a", 1), ("b", 2)] [("b", 9)] "b"

/-- C9: The bridge wrapping a custom fallback invokes it with
`(error, command, request, response, continuation)` in exactly that order
(the four `args.shift()` calls pull the front of `[command, req, res, next]`
left to right), returns its awaitable verbatim, and the awaitable's
settlement classifies the outcome: fulfilled ⇒ FALLBACK_SUCCESS,
rejected ⇒ FALLBACK_FAILURE. -/
theorem custom_fallback_bridge_order {α : Type}
    (f : Option JsError → Option α → Option α → Option α → Option α →
      Except JsError Unit)
    (err : Option JsError) (command request response continuation : α)
    (e : JsError) :
    customFallbackBridge f err [command, request, response, continuation] =
      f err (some command) (some request) (some response)
        (some continuation) ∧
    classifyFallback (Except.ok ()) = Outcome.fallbackSuccess ∧
    classifyFallback (Except.error e) = Outcome.fallbackFailure :=
  ⟨rfl, rfl, rfl⟩

/-- Each `if (config.X && typeof config.X === 'string')` step replaces
exactly the truthy string references with the loaded callable and leaves
everything else alone. -/
lemma resolveRef_cases {F : Type} (load : String → F) (x : ConfigField F) :
    (∀ s, s ≠ "" → x = ConfigField.strRef s →
      resolveRef load x = ConfigField.fn (load s)) ∧
    (x = ConfigField.strRef "" → resolveRef load x = x) ∧
    (∀ g, x = ConfigField.fn g → resolveRef load x = x) ∧
    (x = ConfigField.absent → resolveRef load x = x) := by
  refine ⟨?_, ?_, ?_, ?_⟩
  · intro s hs h
    subst h
    simp [resolveRef, hs]
  · intro h
    subst h
    simp [resolveRef]
  · intro g h
    subst h
    rfl
  · intro h
    subst h
    rfl

/-- C10 counterexample: a field given as the (falsy) empty-string
identifier is NOT replaced by a loaded callable — the truthiness guard
`config.commandResolver &&` skips it, so the claim's "every string
identifier" fails at `""`. -/
theorem setup_empty_ref_counterexample :
    (hystrixFactorySetup (fun _ => (0 : Nat))
      (SetupConfig.mk (ConfigField.strRef "") ConfigField.absent
        ConfigField.absent ConfigField.absent ConfigField.absent
        (0 : Nat))).commandResolver = ConfigField.strRef "" ∧
    (∀ g : Nat,
      (hystrixFactorySetup (fun _ => (0 : Nat))
        (SetupConfig.mk (ConfigField.strRef "") ConfigField.absent
          ConfigField.absent ConfigField.absent ConfigField.absent
          (0 : Nat))).commandResolver ≠ ConfigField.fn g) := by
  exact ⟨rfl, fun g => by simp [hystrixFactorySetup, resolveRef]⟩

/-- C10 amended: at setup time the factory replaces, in the caller's
configuration object, each of `commandResolver`, `commandStatusResolver`,
`fallback`, `runCommand`, `commandExecutorFactory` given as a truthy
(non-empty) string identifier by the loaded callable; fields already
functions, absent fields, empty-string fields and all other fields
(`hystrix`) are left unchanged. -/
theorem setup_resolves_string_refs {F H : Type} (load : String → F)
    (c : SetupConfig F H) :
    ((∀ s, s ≠ "" → c.commandResolver = ConfigField.strRef s →
       (hystrixFactorySetup load c).commandResolver = ConfigField.fn (load s)) ∧
     (c.commandResolver = ConfigField.strRef "" ∨
        (∃ g, c.commandResolver = ConfigField.fn g) ∨
        c.commandResolver = ConfigField.absent →
       (hystrixFactorySetup load c).commandResolver = c.commandResolver)) ∧
    ((∀ s, s ≠ "" → c.commandStatusResolver = ConfigField.strRef s →
       (hystrixFactorySetup load c).commandStatusResolver =
         ConfigField.fn (load s)) ∧
     (c.commandStatusResolver = ConfigField.strRef "" ∨
        (∃ g, c.commandStatusResolver = ConfigField.fn g) ∨
        c.commandStatusResolver = ConfigField.absent →
       (hystrixFactorySetup load c).commandStatusResolver =
         c.commandStatusResolver)) ∧
    ((∀ s, s ≠ "" → c.fallback = ConfigField.strRef s →
       (hystrixFactorySetup load c).fallback = ConfigField.fn (load s)) ∧
     (c.fallback = ConfigField.strRef "" ∨
        (∃ g, c.fallback = ConfigField.fn g) ∨ c.fallback = ConfigField.absent →
       (hystrixFactorySetup load c).fallback = c.fallback)) ∧
    ((∀ s, s ≠ "" → c.runCommand = ConfigField.strRef s →
       (hystrixFactorySetup load c).runCommand = ConfigField.fn (load s)) ∧
     (c.runCommand = ConfigField.strRef "" ∨
        (∃ g, c.runCommand = ConfigField.fn g) ∨
        c.runCommand = ConfigField.absent →
       (hystrixFactorySetup load c).runCommand = c.runCommand)) ∧
    ((∀ s, s ≠ "" → c.commandExecutorFactory = ConfigField.strRef s →
       (hystrixFactorySetup load c).commandExecutorFactory =
         ConfigField.fn (load s)) ∧
     (c.commandExecutorFactory = ConfigField.strRef "" ∨
        (∃ g, c.commandExecutorFactory = ConfigField.fn g) ∨
        c.commandExecutorFactory = ConfigField.absent →
       (hystrixFactorySetup load c).commandExecutorFactory =
         c.commandExecutorFactory)) ∧
    (hystrixFactorySetup load c).hystrix = c.hystrix := by
  have hgen : ∀ x : ConfigField F,
      (∀ s, s ≠ "" → x = ConfigField.strRef s →
        resolveRef load x = ConfigField.fn (load s)) ∧
      (x = ConfigField.strRef "" ∨ (∃ g, x = ConfigField.fn g) ∨
        x = ConfigField.absent → resolveRef load x = x) := by
    intro x
    obtain ⟨h1, h2, h3, h4⟩ := resolveRef_cases load x
    refine ⟨h1, fun hor => ?_⟩
    rcases hor with h | ⟨g, h⟩ | h
    · exact h2 h
    · exact h3 g h
    · exact h4 h
  exact ⟨hgen c.commandResolver, hgen c.commandStatusResolver, hgen c.fallback,
    hgen c.runCommand, hgen c.commandExecutorFactory, rfl⟩

/-- C10 witness: a config with `commandResolver = "mod-a"`,
`commandStatusResolver` a function, `fallback = ""`, the rest absent, and
`hystrix = 42`: only the non-empty string reference is loaded, everything
else survives unchanged. -/
theorem setup_resolves_string_refs_witness :
    (hystrixFactorySetup (fun s => s.length)
      (SetupConfig.mk (ConfigField.strRef "mod-a") (ConfigField.fn 9)
        (ConfigField.strRef "") ConfigField.absent ConfigField.absent
        (42 : Nat))).commandResolver = ConfigField.fn ("mod-a".length) ∧
    (hystrixFactorySetup (fun s => s.length)
      (SetupConfig.mk (ConfigField.strRef "mod-a") (ConfigField.fn 9)
        (ConfigField.strRef "") ConfigField.absent ConfigField.absent
        (42 : Nat))).commandStatusResolver = ConfigField.fn 9 ∧
    (hystrixFactorySetup (fun s => s.length)
      (SetupConfig.mk (ConfigField.strRef "mod-a") (ConfigField.fn 9)
        (ConfigField.strRef "") ConfigField.absent ConfigField.absent
        (42 : Nat))).fallback = ConfigField.strRef "" ∧
    (hystrixFactorySetup (fun s => s.length)
      (SetupConfig.mk (ConfigField.strRef "mod-a") (ConfigField.fn 9)
        (ConfigField.strRef "") ConfigField.absent ConfigField.absent
        (42 : Nat))).hystrix = 42 :=
  ⟨(setup_resolves_string_refs (fun s => s.length) _).1.1 "mod-a" (by decide)
      rfl,
   (setup_resolves_string_refs (fun s => s.length) _).2.1.2
      (Or.inr (Or.inl ⟨9, rfl⟩)),
   (setup_resolves_string_refs (fun s => s.length) _).2.2.1.2 (Or.inl rfl),
   (setup_resolves_string_refs (fun s => s.length) _).2.2.2.2.2⟩

/-- Peeling one failing request off the end of a failing run. -/
lemma runFailing_succ (b : Breaker) (n : Nat) :
    runFailing b (n + 1) = (breakerExecute (runFailing b n) n true).1 := by
  unfold runFailing
  rw [List.range_succ, List.foldl_append, List.foldl_cons, List.foldl_nil]

/-- Strictly below the volume threshold the circuit stays closed and just
counts the consecutive failures. -/
lemma runFailing_below_threshold (V W i : Nat) (h : i < V) :
    runFailing (mkBreaker V W) i =
      { volumeThreshold := V, sleepWindow := W, failures := i,
        openedAt := none } := by
  induction i with
  | zero => rfl
  | succ n ih =>
    have hn : n < V := Nat.lt_of_succ_lt h
    rw [runFailing_succ, ih hn]
    have hlt : ¬ (V ≤ n + 1 ∧ True) := fun hc => absurd hc.1 (by omega)
    simp [breakerExecute, isOpen, hlt]

/-- The `V`-th consecutive failure opens the circuit at its time `V - 1`. -/
lemma runFailing_opens (V W : Nat) (hV : 1 ≤ V) :
    runFailing (mkBreaker V W) V =
      { volumeThreshold := V, sleepWindow := W, failures := V,
        openedAt := some (V - 1) } := by
  cases V with
  | zero => omega
  | succ m =>
    rw [runFailing_succ,
      runFailing_below_threshold (m + 1) W m (Nat.lt_succ_self m)]
    simp [breakerExecute, isOpen]

/-- C7: After `V` consecutive failing requests (at times `0, …, V-1`) to a
command with volume threshold `V ≥ 1`, the circuit is open at time `V-1`;
every request arriving before the sleep window elapses is recorded
SHORT_CIRCUITED with the downstream handler chain never invoked and the
breaker state unchanged (so this holds for the `V+1`-th request onward),
and once the sleep window has elapsed requests reach the handler chain
again. -/
theorem short_circuit_after_threshold (V W : Nat) (hV : 1 ≤ V) :
    (runFailing (mkBreaker V W) V).openedAt = some (V - 1) ∧
    (∀ t fails, t < (V - 1) + W →
      breakerExecute (runFailing (mkBreaker V W) V) t fails =
        (runFailing (mkBreaker V W) V, Outcome.shortCircuited, false)) ∧
    (∀ t fails, (V - 1) + W ≤ t →
      (breakerExecute (runFailing (mkBreaker V W) V) t fails).2.2 = true ∧
      (breakerExecute (runFailing (mkBreaker V W) V) t fails).2.1 ≠
        Outcome.shortCircuited) := by
  have hrun := runFailing_opens V W hV
  refine ⟨by rw [hrun], fun t fails ht => ?_, fun t fails ht => ?_⟩
  · rw [hrun]
    simp [breakerExecute, isOpen, ht]
  · rw [hrun]
    have hcl : ¬ t < (V - 1) + W := by omega
    cases fails <;> simp [breakerExecute, isOpen, hcl]

/-- C7 witness: volume threshold 2, sleep window 3 — after two failing
requests the circuit is open from time 1, short-circuiting for instance at
time 2 and executing again at time 4. -/
theorem short_circuit_after_threshold_witness :
    (1 : Nat) ≤ 2 ∧
    ((runFailing (mkBreaker 2 3) 2).openedAt = some 1 ∧
     (∀ t fails, t < 1 + 3 →
       breakerExecute (runFailing (mkBreaker 2 3) 2) t fails =
         (runFailing (mkBreaker 2 3) 2, Outcome.shortCircuited, false)) ∧
     (∀ t fails, 1 + 3 ≤ t →
       (breakerExecute (runFailing (mkBreaker 2 3) 2) t fails).2.2 = true ∧
       (breakerExecute (runFailing (mkBreaker 2 3) 2) t fails).2.1 ≠
         Outcome.shortCircuited)) :=
  ⟨by decide, short_circuit_after_threshold 2 3 (by decide)⟩

end ExpressHystrix
